import Mathlib

/-!
Shallow embedding of `src/leg_linkage/link_animation.py` (the driver script of the
Wheel_Legged_Bot repository) and of the narrow interface it uses from the external
`mechanism` module.  Angles, lengths and times are embedded as exact real numbers.
-/

namespace LegLinkage

/-- Link lengths (metres), from the module-level constants of the script. -/
noncomputable def L_GROUND : ℝ := 3.0

/-- Input (crank) link length. -/
noncomputable def L_INPUT : ℝ := 1.0

/-- Coupler link length. -/
noncomputable def L_COUPLER : ℝ := 3.0

/-- Output link length. -/
noncomputable def L_OUTPUT : ℝ := 1.0

/-- Modelled from the spec: a `Joint` from the external `mechanism` module is a named
point in the mechanism graph, identity only. -/
structure Joint where
  name : String

/-- Modelled from the spec: a `Vector` from the external `mechanism` module is a
directed rigid segment between two joints with a length `r` and an optional fixed
angle `theta` (present for ground links such as `c`, absent for driven/unknown ones);
`style` mirrors the keyword argument of the script. -/
structure Vector where
  joints : Joint × Joint
  r : ℝ
  theta : Option ℝ
  style : Option String

/-- Right ground pivot. -/
def O : Joint := ⟨"O"⟩

/-- Crank end (moving). -/
def A : Joint := ⟨"A"⟩

/-- Coupler-output joint (moving). -/
def B : Joint := ⟨"B"⟩

/-- Left ground pivot. -/
def C : Joint := ⟨"C"⟩

/-- Input crank O->A, length `L_INPUT`, angle supplied per sample. -/
noncomputable def a : Vector := ⟨(O, A), L_INPUT, none, none⟩

/-- Coupler A->B, length `L_COUPLER`, angle unknown (bound to x[0]). -/
noncomputable def b : Vector := ⟨(A, B), L_COUPLER, none, none⟩

/-- Ground O->C, length `L_GROUND`, angle fixed at pi, style "ground". -/
noncomputable def c : Vector := ⟨(O, C), L_GROUND, some Real.pi, some "ground"⟩

/-- Output C->B, length `L_OUTPUT`, angle unknown (bound to x[1]). -/
noncomputable def d : Vector := ⟨(C, B), L_OUTPUT, none, none⟩

/-- Modelled from the spec: evaluating a Vector at an angle returns its Cartesian
component `length * (cos angle, sin angle)`; this is how the script calls `a(input)`,
`b(x[0])` and `d(x[1])`. The `mechanism` module itself is not under src/. -/
noncomputable def Vector.eval (v : Vector) (ang : ℝ) : ℝ × ℝ :=
  (v.r * Real.cos ang, v.r * Real.sin ang)

/-- Modelled from the spec: calling a Vector with no argument, as the script does
with `c()`, evaluates it at its own fixed angle. -/
noncomputable def Vector.evalFixed (v : Vector) : ℝ × ℝ :=
  v.eval (v.theta.getD 0)

/-- Loop equation of the script: `a(input) + b(x[0]) - c() - d(x[1])`, with `x` the
vector of unknown angles (x[0] for `b`, x[1] for `d`) and `input` the driving angle. -/
noncomputable def loop (x : Fin 2 → ℝ) (input : ℝ) : ℝ × ℝ :=
  a.eval input + b.eval (x 0) - c.evalFixed - d.eval (x 1)

/-- Cartesian position of joint B reached through the chain O->A->B. -/
noncomputable def chain_OAB (input x0 : ℝ) : ℝ × ℝ :=
  a.eval input + b.eval x0

/-- Cartesian position of joint B reached through the chain O->C->B. -/
noncomputable def chain_OCB (x1 : ℝ) : ℝ × ℝ :=
  c.evalFixed + d.eval x1

/-- Number of animation frames of the script. -/
def n_frames : ℕ := 360

/-- Sample times: `np.linspace(0.0, 1.0, 360)`, so `time i = i / 359`. -/
noncomputable def time (i : ℕ) : ℝ := i / 359

/-- Constant angular velocity `2 * pi / (time[-1] - time[0])` of the input crank. -/
noncomputable def angular_velocity : ℝ := 2 * Real.pi / (time 359 - time 0)

/-- Driving velocity profile: `np.full(n_frames, angular_velocity)`. -/
noncomputable def omega (i : ℕ) : ℝ := angular_velocity

/-- Driving acceleration profile: `np.zeros(n_frames)`. -/
noncomputable def alpha (i : ℕ) : ℝ := 0

/-- Offset avoiding the exact 0 and 2*pi configurations. -/
noncomputable def eps : ℝ := 1e-3

/-- Driving position profile, the final binding of `theta` in the script:
`np.linspace(eps, 2*pi - eps, n_frames)`, so `theta i = eps + i * step` with
`step = ((2*pi - eps) - eps) / 359`. -/
noncomputable def theta (i : ℕ) : ℝ :=
  eps + i * ((2 * Real.pi - eps) - eps) / 359

/-- The driving position profile as the ordered sequence the script passes to
`Mechanism(pos=theta, ...)`. -/
noncomputable def thetaList : List ℝ := (List.range n_frames).map theta

/-- The driving velocity profile as an ordered sequence. -/
noncomputable def omegaList : List ℝ := (List.range n_frames).map omega

/-- The driving acceleration profile as an ordered sequence. -/
noncomputable def alphaList : List ℝ := (List.range n_frames).map alpha

/-- Degrees to radians, `np.deg2rad`. -/
noncomputable def deg2rad (x : ℝ) : ℝ := x * Real.pi / 180

/-- Initial guess for the unknown position angles: `np.deg2rad([45, 90])`. -/
noncomputable def pos_guess : List ℝ := [deg2rad 45, deg2rad 90]

/-- Initial guess for the unknown angular velocities: `np.deg2rad([100, 100])`. -/
noncomputable def vel_guess : List ℝ := [deg2rad 100, deg2rad 100]

/-- Initial guess for the unknown angular accelerations: `np.deg2rad([100, 100])`. -/
noncomputable def acc_guess : List ℝ := [deg2rad 100, deg2rad 100]

/-- The vectors whose angles are unknown: per the source comments, `x[0]` is the
angle of vector `b` and `x[1]` the angle of vector `d`. -/
noncomputable def unknown_vectors : List Vector := [b, d]

/-- Number of unknown angles declared across all Vectors. -/
noncomputable def numUnknowns : ℕ := unknown_vectors.length

/-- Modelled from the spec: the `Mechanism` of the external `mechanism` module
aggregates the vectors, the origin joint, the loop-closure function, the three
driving-profile sequences and the three initial-guess vectors. -/
structure Mechanism where
  vectors : List Vector
  origin : Joint
  loops : (Fin 2 → ℝ) → ℝ → ℝ × ℝ
  pos : List ℝ
  vel : List ℝ
  acc : List ℝ
  guess : List ℝ × List ℝ × List ℝ

/-- The three resolved time series a Vector exposes after solving. -/
structure ResolvedSeries where
  thetas : List ℝ
  omegas : List ℝ
  alphas : List ℝ

/-- Modelled from the spec: `Mechanism.iterate` runs the per-sample solve pipeline
for samples 0..N-1, N being the length of the driving profile, and records exactly
one (angle, angular velocity, angular acceleration) entry per sample on every
participating Vector; `solve v i` stands for the solved kinematic state of the
vector with index `v` at sample `i` (the solver lives in the external `mechanism`
module, not under src/). -/
def Mechanism.iterate (m : Mechanism) (solve : ℕ → ℕ → ℝ × ℝ × ℝ) :
    ℕ → ResolvedSeries :=
  fun v =>
    ⟨(List.range m.pos.length).map (fun i => (solve v i).1),
     (List.range m.pos.length).map (fun i => (solve v i).2.1),
     (List.range m.pos.length).map (fun i => (solve v i).2.2)⟩

/-- The mechanism object the script constructs. -/
noncomputable def mech : Mechanism :=
  ⟨[a, b, c, d], O, loop, thetaList, omegaList, alphaList,
   (pos_guess, vel_guess, acc_guess)⟩

/-- C1: the loop-closure function is a pure function of exactly (unknown-angle
vector, driving-input angle): it returns the residual a(input) + b(x[0]) - c() -
d(x[1]), which is the position of B through the chain O->A->B minus its position
through O->C->B, in closed form depending on nothing but `x` and `input`. -/
theorem loop_is_chain_residual (x : Fin 2 → ℝ) (input : ℝ) :
    loop x input = chain_OAB input (x 0) - chain_OCB (x 1) ∧
    loop x input =
      (Real.cos input + 3 * Real.cos (x 0) + 3 - Real.cos (x 1),
       Real.sin input + 3 * Real.sin (x 0) - Real.sin (x 1)) := by
  constructor
  · simp [loop, chain_OAB, chain_OCB]
    abel
  · simp [loop, chain_OAB, chain_OCB, Vector.eval, Vector.evalFixed,
      a, b, c, d, L_INPUT, L_COUPLER, L_GROUND, L_OUTPUT,
      Prod.mk_add_mk, Prod.mk_sub_mk, Prod.ext_iff]
    constructor <;> ring

/-- C2: after `Mechanism.iterate` the resolved series of every Vector — angles,
angular velocities, angular accelerations — each have length exactly N = 360, the
length of the driving profile. -/
theorem iterate_series_lengths (solve : ℕ → ℕ → ℝ × ℝ × ℝ) (v : ℕ) :
    (mech.iterate solve v).thetas.length = n_frames ∧
    (mech.iterate solve v).omegas.length = n_frames ∧
    (mech.iterate solve v).alphas.length = n_frames ∧
    mech.pos.length = n_frames ∧ n_frames = 360 := by
  simp [Mechanism.iterate, mech, thetaList, n_frames]

/-- C3: the three driving-profile sequences passed to the Mechanism constructor
all have length N = 360, the number of animation frames. -/
theorem driving_profiles_same_length :
    thetaList.length = n_frames ∧ omegaList.length = n_frames ∧
    alphaList.length = n_frames ∧ n_frames = 360 := by
  simp [thetaList, omegaList, alphaList, n_frames]

/-- C4: each initial-guess vector has length equal to the number of unknown
angles, which is 2 (the angles of vectors b and d). -/
theorem guesses_sized_to_unknowns :
    pos_guess.length = numUnknowns ∧ vel_guess.length = numUnknowns ∧
    acc_guess.length = numUnknowns ∧ numUnknowns = 2 := by
  simp [pos_guess, vel_guess, acc_guess, numUnknowns, unknown_vectors]

/-- C6: the example mechanism has ground length 3.0, input length 1.0, coupler
length 3.0, output length 1.0, and the ground vector's angle fixed at pi. -/
theorem example_link_configuration :
    a.r = 1 ∧ b.r = 3 ∧ c.r = 3 ∧ d.r = 1 ∧
    L_GROUND = 3 ∧ L_INPUT = 1 ∧ L_COUPLER = 3 ∧ L_OUTPUT = 1 ∧
    c.theta = some Real.pi := by
  norm_num [a, b, c, d, L_GROUND, L_INPUT, L_COUPLER, L_OUTPUT]

/-- C5 counterexample: already at the first sample pair, the finite difference of
the driving position over the sample spacing is not the declared angular velocity
omega[0] = 2 * pi; the linspace from eps to 2*pi - eps has slope 2*pi - 2*eps. -/
theorem finite_difference_misses_omega :
    (theta 1 - theta 0) / (time 1 - time 0) ≠ omega 0 := by
  have he : eps = 1 / 1000 := by norm_num [eps]
  have h1 : (theta 1 - theta 0) / (time 1 - time 0) = 2 * Real.pi - 2 * eps := by
    simp only [theta, time]
    push_cast
    field_simp
    ring
  have h2 : omega 0 = 2 * Real.pi := by
    have ht : time 359 - time 0 = 1 := by norm_num [time]
    simp [omega, angular_velocity, ht]
  rw [h1, h2, he]
  intro hcon
  have := Real.pi_pos
  linarith

/-- C5 amended: for every consecutive sample pair the finite difference
(theta[i+1] - theta[i]) / (time[i+1] - time[i]) equals the constant
2*pi - 2*10^-3, which falls short of the declared omega[i] = 2*pi by exactly
2*10^-3. -/
theorem finite_difference_constant (i : ℕ) (h : i < 359) :
    (theta (i + 1) - theta i) / (time (i + 1) - time i) =
      2 * Real.pi - 2 * (1 / 1000) ∧
    omega i - (theta (i + 1) - theta i) / (time (i + 1) - time i) =
      2 * (1 / 1000) := by
  have he : eps = 1 / 1000 := by norm_num [eps]
  have hth : theta (i + 1) - theta i = (2 * Real.pi - 2 * eps) / 359 := by
    simp only [theta]
    push_cast
    ring
  have hti : time (i + 1) - time i = 1 / 359 := by
    simp only [time]
    push_cast
    ring
  have h1 : (theta (i + 1) - theta i) / (time (i + 1) - time i) =
      2 * Real.pi - 2 * eps := by
    rw [hth, hti]
    field_simp
  have h2 : omega i = 2 * Real.pi := by
    have ht : time 359 - time 0 = 1 := by norm_num [time]
    simp [omega, angular_velocity, ht]
  rw [h1, h2, he]
  constructor <;> ring

/-- Witness for C5 amended at the first sample pair. -/
theorem finite_difference_constant_witness :
    (theta (0 + 1) - theta 0) / (time (0 + 1) - time 0) =
      2 * Real.pi - 2 * (1 / 1000) ∧
    omega 0 - (theta (0 + 1) - theta 0) / (time (0 + 1) - time 0) =
      2 * (1 / 1000) :=
  finite_difference_constant 0 (by norm_num)

/-- C7: the driving motion is prescribed at constant angular velocity: every
velocity entry equals 2*pi / (time[N-1] - time[0]) = 2*pi and every acceleration
entry is zero. -/
theorem driving_motion_constant_velocity (i : ℕ) (h : i < n_frames) :
    omega i = 2 * Real.pi / (time (n_frames - 1) - time 0) ∧
    omega i = 2 * Real.pi ∧ alpha i = 0 := by
  have ht : time (n_frames - 1) - time 0 = 1 := by norm_num [time, n_frames]
  refine ⟨rfl, ?_, rfl⟩
  have : time (n_frames - 1) = time 359 := rfl
  simp [omega, angular_velocity, ← this, ht]

/-- Witness for C7 at sample 0. -/
theorem driving_motion_constant_velocity_witness :
    omega 0 = 2 * Real.pi / (time (n_frames - 1) - time 0) ∧
    omega 0 = 2 * Real.pi ∧ alpha 0 = 0 :=
  driving_motion_constant_velocity 0 (by norm_num [n_frames])

/-- C8: every driving position sample lies strictly between 0 and 2*pi, with
theta[0] = 10^-3 and theta[N-1] = 2*pi - 10^-3. -/
theorem theta_strictly_between (i : ℕ) (h : i < n_frames) :
    0 < theta i ∧ theta i < 2 * Real.pi ∧
    theta 0 = 1 / 1000 ∧ theta (n_frames - 1) = 2 * Real.pi - 1 / 1000 := by
  have hpi : (3:ℝ) < Real.pi := Real.pi_gt_three
  have he : eps = 1 / 1000 := by norm_num [eps]
  have hX : (0:ℝ) ≤ 2 * Real.pi - eps - eps := by rw [he]; nlinarith
  have hi : (i:ℝ) ≤ 359 := by
    have hn : i ≤ 359 := Nat.lt_succ_iff.mp h
    exact_mod_cast hn
  have hlast : theta (n_frames - 1) = 2 * Real.pi - 1 / 1000 := by
    show theta 359 = 2 * Real.pi - 1 / 1000
    simp only [theta, he]
    push_cast
    ring
  refine ⟨?_, ?_, ?_, hlast⟩
  · have h0 : 0 ≤ (i:ℝ) * (2 * Real.pi - eps - eps) / 359 :=
      div_nonneg (mul_nonneg (Nat.cast_nonneg i) (by linarith)) (by norm_num)
    have hepos : 0 < eps := by rw [he]; norm_num
    simp only [theta]
    nlinarith
  · have hm : (i:ℝ) * (2 * Real.pi - eps - eps) ≤ 359 * (2 * Real.pi - eps - eps) :=
      mul_le_mul_of_nonneg_right hi (by linarith)
    have hepos : 0 < eps := by rw [he]; norm_num
    simp only [theta]
    nlinarith
  · simp only [theta, he]
    push_cast
    ring

/-- Witness for C8 at sample 0. -/
theorem theta_strictly_between_witness :
    0 < theta 0 ∧ theta 0 < 2 * Real.pi ∧
    theta 0 = 1 / 1000 ∧ theta (n_frames - 1) = 2 * Real.pi - 1 / 1000 :=
  theta_strictly_between 0 (by norm_num [n_frames])

/-- Shortest of the four link lengths. -/
noncomputable def shortest_link : ℝ :=
  min (min L_GROUND L_INPUT) (min L_COUPLER L_OUTPUT)

/-- Longest of the four link lengths. -/
noncomputable def longest_link : ℝ :=
  max (max L_GROUND L_INPUT) (max L_COUPLER L_OUTPUT)

/-- Grashof condition on the example linkage: shortest plus longest link length
does not exceed the sum of the other two link lengths. -/
def grashof_condition : Prop :=
  shortest_link + longest_link ≤
    L_GROUND + L_INPUT + L_COUPLER + L_OUTPUT - shortest_link - longest_link

/-- C9: the example link lengths {3, 1, 3, 1} satisfy the Grashof condition:
shortest (1) plus longest (3) equals, hence does not exceed, the sum of the other
two (1 + 3). -/
theorem example_satisfies_grashof :
    grashof_condition ∧ shortest_link = 1 ∧ longest_link = 3 := by
  norm_num [grashof_condition, shortest_link, longest_link,
    L_GROUND, L_INPUT, L_COUPLER, L_OUTPUT, min_def, max_def]

/-- C10: the driving position sequence has a uniform, strictly positive step:
theta[i+1] - theta[i] = (2*pi - 2*10^-3) / 359 for every i in 0..358, so theta is
strictly increasing. -/
theorem theta_uniform_increasing_step (i : ℕ) (h : i < 359) :
    theta (i + 1) - theta i = (2 * Real.pi - 2 * (1 / 1000)) / 359 ∧
    0 < (2 * Real.pi - 2 * (1 / 1000)) / 359 ∧
    theta i < theta (i + 1) := by
  have hpi : (3:ℝ) < Real.pi := Real.pi_gt_three
  have he : eps = 1 / 1000 := by norm_num [eps]
  have hstep : theta (i + 1) - theta i = (2 * Real.pi - 2 * (1 / 1000)) / 359 := by
    simp only [theta, he]
    push_cast
    ring
  have hpos : 0 < (2 * Real.pi - 2 * (1 / 1000)) / 359 :=
    div_pos (by nlinarith) (by norm_num)
  exact ⟨hstep, hpos, by linarith⟩

/-- Witness for C10 at the first sample pair. -/
theorem theta_uniform_increasing_step_witness :
    theta (0 + 1) - theta 0 = (2 * Real.pi - 2 * (1 / 1000)) / 359 ∧
    0 < (2 * Real.pi - 2 * (1 / 1000)) / 359 ∧
    theta 0 < theta (0 + 1) :=
  theta_uniform_increasing_step 0 (by norm_num)

end LegLinkage
